import Mathlib

/-!
# Ghostty VT bridge (src/native/ghostty_vt.cc)

A shallow embedding of the N-API bridge between a host runtime and the
external Ghostty VT engine, and theorems about the lifecycle of the wrapped
native handle, the status codes of the mutators and the ownership of the
viewport snapshot buffer.

The engine is external (declared in ghostty_vt.h). It is modelled as an
arbitrary deterministic oracle: every primitive answers as a function of the
history of native calls made so far and of its arguments. Each native call the
bridge makes is appended to that history, so the history is at the same time
the observable trace of the bridge.
-/

namespace GhosttyVt

/-! ## The native boundary -/

/-- Snapshot buffer ghostty_vt_bytes_t: a pointer and length pair. The null
pointer is 0. -/
structure ghostty_vt_bytes_t where
  ptr : Nat
  len : Nat
deriving DecidableEq

/-- One call into the native engine, with its arguments and its result.
Pointers and refs are addresses, 0 being null; a byte is a natural number
below 256; a status is a C int. -/
inductive NativeCall where
  | terminal_new (cols rows : Nat) (ret : Nat)
  | terminal_feed (terminal : Nat) (data : List Nat) (len : Nat) (ret : Int)
  | terminal_resize (terminal : Nat) (cols rows : Nat) (ret : Int)
  | terminal_dump_viewport (terminal : Nat) (ret : ghostty_vt_bytes_t)
  | bytes_free (bytes : ghostty_vt_bytes_t)
  | terminal_free (terminal : Nat)
deriving DecidableEq

/-- Chronological record of the native calls made so far. -/
abbrev Trace := List NativeCall

/-- The external engine: what each value-returning primitive answers after a
given history, and what byte a native address holds after a given history.
The two void primitives (bytes_free, terminal_free) only extend the history. -/
structure Native where
  ghostty_vt_terminal_new : Trace → Nat → Nat → Nat
  ghostty_vt_terminal_feed : Trace → Nat → List Nat → Nat → Int
  ghostty_vt_terminal_resize : Trace → Nat → Nat → Nat → Int
  ghostty_vt_terminal_dump_viewport : Trace → Nat → ghostty_vt_bytes_t
  memory : Trace → Nat → Nat

/-! ## Host values -/

/-- A host number (a double): not-a-number, an infinity, or a finite value,
which is a rational. -/
inductive JsNumber where
  | nan
  | posInf
  | negInf
  | finite (q : ℚ)
deriving DecidableEq

/-- A value the host passes as an argument. -/
inductive JsValue where
  | undefined
  | null
  | boolean (b : Bool)
  | number (n : JsNumber)
  | string (s : String)
  | buffer (data : List Nat)
  | object
deriving DecidableEq

/-- A value the bridge hands back to the host: a number made from an int, a
text, or undefined. -/
inductive HostValue where
  | number (n : Int)
  | string (text : String)
  | undefined
deriving DecidableEq

/-- A pending host exception raised by ThrowAsJavaScriptException. -/
inductive Thrown where
  | TypeError (message : String)
  | Error (message : String)
deriving DecidableEq

/-- Napi::Value::IsNumber. -/
def IsNumber : JsValue → Bool
  | .number _ => true
  | _ => false

/-- Napi::Value::IsBuffer. -/
def IsBuffer : JsValue → Bool
  | .buffer _ => true
  | _ => false

/-- Napi::Value::IsString. -/
def IsString : JsValue → Bool
  | .string _ => true
  | _ => false

/-- Napi::Number::Uint32Value on a number: non-finite values give 0, a finite
value is truncated toward zero and reduced to its bottom 32 bits. -/
def JsNumber.Uint32Value : JsNumber → Nat
  | .finite q => ((Int.tdiv q.num (q.den : Int)) % (2 ^ 32 : Int)).toNat
  | _ => 0

/-- The expression info[i].As<Napi::Number>().Uint32Value(); the bridge only
evaluates it behind an IsNumber guard. -/
def Uint32Value : JsValue → Nat
  | .number n => n.Uint32Value
  | _ => 0

/-- The static_cast<uint16_t> of an unsigned 32-bit value. -/
def to_uint16 (u : Nat) : Nat := u % 2 ^ 16

/-- UTF-8 bytes of a text. -/
def utf8 (s : String) : List Nat := s.toUTF8.data.toList.map UInt8.toNat

/-- State of the UTF-8 decoder between two bytes: how many continuation bytes
the open sequence still needs (0 when none is open), the code point bits read
so far, and the range the next continuation byte has to lie in. -/
structure Utf8State where
  needed : Nat
  cp : Nat
  lower : Nat
  upper : Nat
deriving DecidableEq

/-- The decoder state with no sequence open. -/
def Utf8State.init : Utf8State := ⟨0, 0, 0x80, 0xBF⟩

/-- A byte met with no sequence open: an ASCII byte is a code point of its own,
a lead byte C2..DF, E0..EF or F0..F4 opens a sequence of two, three or four
bytes (E0, ED, F0 and F4 narrow the range of the byte after them, which keeps
out overlong forms, surrogates and values past 10FFFF), and any other byte is
replaced by U+FFFD. Gives the code points emitted and the state after. -/
def utf8Lead (b : Nat) : List Nat × Utf8State :=
  if b ≤ 0x7F then ([b], Utf8State.init)
  else if 0xC2 ≤ b ∧ b ≤ 0xDF then ([], ⟨1, b % 32, 0x80, 0xBF⟩)
  else if 0xE0 ≤ b ∧ b ≤ 0xEF then
    ([], ⟨2, b % 16, if b = 0xE0 then 0xA0 else 0x80, if b = 0xED then 0x9F else 0xBF⟩)
  else if 0xF0 ≤ b ∧ b ≤ 0xF4 then
    ([], ⟨3, b % 8, if b = 0xF0 then 0x90 else 0x80, if b = 0xF4 then 0x8F else 0xBF⟩)
  else ([0xFFFD], Utf8State.init)

/-- UTF-8 decoding with replacement, as the host does it when it makes a text
from bytes: a well-formed sequence gives its code point; a sequence cut short
by a byte that cannot continue it, or by the end of the input, gives one
U+FFFD, and the byte that cut it short is read again with no sequence open. -/
def utf8DecodeFrom (st : Utf8State) : List Nat → List Nat
  | [] => if st.needed = 0 then [] else [0xFFFD]
  | b :: bs =>
    if st.needed = 0 then
      (utf8Lead b).1 ++ utf8DecodeFrom (utf8Lead b).2 bs
    else if st.lower ≤ b ∧ b ≤ st.upper then
      if st.needed = 1 then
        (st.cp * 64 + b % 64) :: utf8DecodeFrom Utf8State.init bs
      else
        utf8DecodeFrom ⟨st.needed - 1, st.cp * 64 + b % 64, 0x80, 0xBF⟩ bs
    else
      0xFFFD :: ((utf8Lead b).1 ++ utf8DecodeFrom (utf8Lead b).2 bs)

/-- The text with the given code points. -/
def textOf (cps : List Nat) : String := String.mk (cps.map Char.ofNat)

/-- Napi::String::New on a byte string: the host text decoded from its bytes. -/
def StringNew (bytes : List Nat) : HostValue :=
  HostValue.string (textOf (utf8DecodeFrom Utf8State.init bytes))

/-- Napi::String::Utf8Value of info[i].As<Napi::String>(). -/
def Utf8Value : JsValue → List Nat
  | .string s => utf8 s
  | _ => []

/-- Bytes of info[i].As<Napi::Buffer<uint8_t>>(), that is Data() over Length(). -/
def BufferData : JsValue → List Nat
  | .buffer data => data
  | _ => []

/-- Napi::CallbackInfo::operator[]: arguments past Length() read as undefined. -/
def arg (info : List JsValue) (i : Nat) : JsValue := info.getD i JsValue.undefined

/-- The std::strlen of a byte string: the bytes before the first NUL. -/
def strlen (bytes : List Nat) : Nat := (bytes.takeWhile (fun b => b != 0)).length

/-- The std::string::assign(ptr, len): the len bytes at ptr, read after history tr. -/
def assign (N : Native) (tr : Trace) (ptr len : Nat) : List Nat :=
  (List.range len).map (fun i => N.memory tr (ptr + i))

/-! ## The bridge -/

/-- The fixed script of RenderDemo. -/
def demo : String :=
  "Ghostty VT core wired ✅\n$ printf 'hello from ghostty\\n'\nhello from ghostty\n"

/-- RenderDemo: returns the host text and the extended trace. -/
def RenderDemo (N : Native) (tr : Trace) : HostValue × Trace :=
  let terminal := N.ghostty_vt_terminal_new tr 80 24
  let tr1 := tr ++ [NativeCall.terminal_new 80 24 terminal]
  if terminal = 0 then
    (StringNew (utf8 "Failed to initialize Ghostty VT terminal."), tr1)
  else
    let data := utf8 demo
    let status := N.ghostty_vt_terminal_feed tr1 terminal data (strlen data)
    let tr2 := tr1 ++ [NativeCall.terminal_feed terminal data (strlen data) status]
    let viewport := N.ghostty_vt_terminal_dump_viewport tr2 terminal
    let tr3 := tr2 ++ [NativeCall.terminal_dump_viewport terminal viewport]
    let output :=
      if viewport.ptr ≠ 0 ∧ viewport.len > 0 then assign N tr3 viewport.ptr viewport.len
      else utf8 "(no viewport output)"
    let tr4 := tr3 ++ [NativeCall.bytes_free viewport]
    let tr5 := tr4 ++ [NativeCall.terminal_free terminal]
    (StringNew output, tr5)

/-- The wrapper object: its only field is the owned native ref, 0 being nullptr. -/
structure GhosttyTerminal where
  terminal_ : Nat
deriving DecidableEq

/-- Outcome of a method call: the returned host value, the wrapper afterwards
and the trace afterwards. -/
structure Outcome where
  ret : HostValue
  self : GhosttyTerminal
  trace : Trace
deriving DecidableEq

/-- Outcome of the constructor: the pending exception if one was thrown, the
wrapper as the constructor left it, and the trace afterwards. -/
structure Constructed where
  thrown : Option Thrown
  self : GhosttyTerminal
  trace : Trace
deriving DecidableEq

/-- The constructor GhosttyTerminal::GhosttyTerminal(info). -/
def GhosttyTerminal.ctor (N : Native) (tr : Trace) (info : List JsValue) : Constructed :=
  if info.length < 2 || !IsNumber (arg info 0) || !IsNumber (arg info 1) then
    ⟨some (Thrown.TypeError "Expected cols, rows"), ⟨0⟩, tr⟩
  else
    let cols := to_uint16 (Uint32Value (arg info 0))
    let rows := to_uint16 (Uint32Value (arg info 1))
    let terminal := N.ghostty_vt_terminal_new tr cols rows
    let tr1 := tr ++ [NativeCall.terminal_new cols rows terminal]
    if terminal = 0 then
      ⟨some (Thrown.Error "Failed to create Ghostty VT terminal"), ⟨terminal⟩, tr1⟩
    else
      ⟨none, ⟨terminal⟩, tr1⟩

/-- The static factory Create: constructor.New on info[0] and info[1]. -/
def GhosttyTerminal.Create (N : Native) (tr : Trace) (info : List JsValue) : Constructed :=
  GhosttyTerminal.ctor N tr [arg info 0, arg info 1]

/-- FreeInternal: release the native ref if there is one. -/
def GhosttyTerminal.FreeInternal (self : GhosttyTerminal) (tr : Trace) :
    GhosttyTerminal × Trace :=
  if self.terminal_ ≠ 0 then
    (⟨0⟩, tr ++ [NativeCall.terminal_free self.terminal_])
  else
    (self, tr)

/-- The destructor, which runs on finalization: FreeInternal. -/
def GhosttyTerminal.dtor (self : GhosttyTerminal) (tr : Trace) : GhosttyTerminal × Trace :=
  self.FreeInternal tr

/-- Method feed. -/
def GhosttyTerminal.Feed (N : Native) (self : GhosttyTerminal) (tr : Trace)
    (info : List JsValue) : Outcome :=
  if self.terminal_ = 0 then
    ⟨HostValue.number 1, self, tr⟩
  else if info.length < 1 then
    ⟨HostValue.number 2, self, tr⟩
  else if IsBuffer (arg info 0) then
    let buf := BufferData (arg info 0)
    let result := N.ghostty_vt_terminal_feed tr self.terminal_ buf buf.length
    ⟨HostValue.number result, self,
      tr ++ [NativeCall.terminal_feed self.terminal_ buf buf.length result]⟩
  else if IsString (arg info 0) then
    let data := Utf8Value (arg info 0)
    let result := N.ghostty_vt_terminal_feed tr self.terminal_ data data.length
    ⟨HostValue.number result, self,
      tr ++ [NativeCall.terminal_feed self.terminal_ data data.length result]⟩
  else
    ⟨HostValue.number 3, self, tr⟩

/-- Method resize. -/
def GhosttyTerminal.Resize (N : Native) (self : GhosttyTerminal) (tr : Trace)
    (info : List JsValue) : Outcome :=
  if self.terminal_ = 0 then
    ⟨HostValue.number 1, self, tr⟩
  else if info.length < 2 || !IsNumber (arg info 0) || !IsNumber (arg info 1) then
    ⟨HostValue.number 2, self, tr⟩
  else
    let cols := to_uint16 (Uint32Value (arg info 0))
    let rows := to_uint16 (Uint32Value (arg info 1))
    let result := N.ghostty_vt_terminal_resize tr self.terminal_ cols rows
    ⟨HostValue.number result, self,
      tr ++ [NativeCall.terminal_resize self.terminal_ cols rows result]⟩

/-- Method dumpViewport; its arguments are ignored. -/
def GhosttyTerminal.DumpViewport (N : Native) (self : GhosttyTerminal) (tr : Trace)
    (_info : List JsValue) : Outcome :=
  if self.terminal_ = 0 then
    ⟨StringNew (utf8 ""), self, tr⟩
  else
    let viewport := N.ghostty_vt_terminal_dump_viewport tr self.terminal_
    let tr1 := tr ++ [NativeCall.terminal_dump_viewport self.terminal_ viewport]
    let output :=
      if viewport.ptr ≠ 0 ∧ viewport.len > 0 then assign N tr1 viewport.ptr viewport.len
      else []
    ⟨StringNew output, self, tr1 ++ [NativeCall.bytes_free viewport]⟩

/-- Method free; its arguments are ignored. -/
def GhosttyTerminal.Free (self : GhosttyTerminal) (tr : Trace) (_info : List JsValue) :
    Outcome :=
  ⟨HostValue.undefined, (self.FreeInternal tr).1, (self.FreeInternal tr).2⟩

/-! ## Call sequences -/

/-- One method call the host makes on a wrapper, with its argument list. -/
inductive Op where
  | feed (info : List JsValue)
  | resize (info : List JsValue)
  | dumpViewport (info : List JsValue)
  | free (info : List JsValue)
deriving DecidableEq

/-- Dispatch of one method call, as registered by InstanceMethod in Init. -/
def GhosttyTerminal.call (N : Native) (self : GhosttyTerminal) (tr : Trace) : Op → Outcome
  | Op.feed info => self.Feed N tr info
  | Op.resize info => self.Resize N tr info
  | Op.dumpViewport info => self.DumpViewport N tr info
  | Op.free info => self.Free tr info

/-- What has come of a sequence of method calls: the returned values in call
order, the wrapper afterwards and the trace afterwards. -/
structure Run where
  rets : List HostValue
  self : GhosttyTerminal
  trace : Trace
deriving DecidableEq

/-- A finite sequence of method calls, made one after the other (the host
serializes calls on a handle). -/
def GhosttyTerminal.run (N : Native) (self : GhosttyTerminal) (tr : Trace) : List Op → Run
  | [] => ⟨[], self, tr⟩
  | op :: ops =>
    let o := self.call N tr op
    let r := GhosttyTerminal.run N o.self o.trace ops
    ⟨o.ret :: r.rets, r.self, r.trace⟩

/-- Refs on which terminal_free was called, in call order. -/
def frees : Trace → List Nat
  | [] => []
  | NativeCall.terminal_free t :: tr => t :: frees tr
  | _ :: tr => frees tr

/-- What a method returns on a wrapper that holds no native ref. -/
def freedRet : Op → HostValue
  | Op.feed _ => HostValue.number 1
  | Op.resize _ => HostValue.number 1
  | Op.dumpViewport _ => HostValue.string ""
  | Op.free _ => HostValue.undefined

/-- Whether a call is an explicit free. -/
def Op.isFree : Op → Bool
  | Op.free _ => true
  | _ => false

/-- Number of snapshots obtained from dump_viewport in a trace. -/
def obtained : Trace → Nat
  | [] => 0
  | NativeCall.terminal_dump_viewport _ _ :: tr => obtained tr + 1
  | _ :: tr => obtained tr

/-- Number of snapshots handed back through bytes_free in a trace. -/
def released : Trace → Nat
  | [] => 0
  | NativeCall.bytes_free _ :: tr => released tr + 1
  | _ :: tr => released tr

/-- Trace of a whole wrapper lifetime on top of the history tr: construction
from info, the method calls ops, then finalization (the destructor). -/
def lifetime (N : Native) (tr : Trace) (info : List JsValue) (ops : List Op) : Trace :=
  let c := GhosttyTerminal.ctor N tr info
  let r := c.self.run N c.trace ops
  (r.self.dtor r.trace).2

/-- Whether an argument is a number outside the unsigned 16-bit range 0..65535
(a non-finite number counts as outside). -/
def outOfUint16Range : JsValue → Bool
  | JsValue.number (JsNumber.finite q) => decide (q < 0) || decide (65535 < q)
  | JsValue.number _ => true
  | _ => false

/-- UTF-8 encoding of a code point, in arithmetic on its value. -/
def encNat (v : Nat) : List Nat :=
  if v ≤ 0x7f then [v]
  else if v ≤ 0x7ff then [v / 64 % 32 + 192, v % 64 + 128]
  else if v ≤ 0xffff then [v / 4096 % 16 + 224, v / 64 % 64 + 128, v % 64 + 128]
  else [v / 262144 % 8 + 240, v / 4096 % 64 + 128, v / 64 % 64 + 128, v % 64 + 128]

/-- A test double: create answers ref 7, every status is 0, every dump is the
5 bytes at address 100, and memory holds the byte 104 everywhere. -/
def stubNative : Native where
  ghostty_vt_terminal_new := fun _ _ _ => 7
  ghostty_vt_terminal_feed := fun _ _ _ _ => 0
  ghostty_vt_terminal_resize := fun _ _ _ _ => 0
  ghostty_vt_terminal_dump_viewport := fun _ _ => ⟨100, 5⟩
  memory := fun _ _ => 104

/-- A test double that answers every dump with the demo script itself, held at
address 100. -/
def echoNative : Native where
  ghostty_vt_terminal_new := fun _ _ _ => 7
  ghostty_vt_terminal_feed := fun _ _ _ _ => 0
  ghostty_vt_terminal_resize := fun _ _ _ _ => 0
  ghostty_vt_terminal_dump_viewport := fun _ _ => ⟨100, (utf8 demo).length⟩
  memory := fun _ a => (utf8 demo).getD (a - 100) 0

/-- A test double whose every dump is the single byte 255 at address 100, which
is not well-formed UTF-8. -/
def invalidByteNative : Native where
  ghostty_vt_terminal_new := fun _ _ _ => 7
  ghostty_vt_terminal_feed := fun _ _ _ _ => 0
  ghostty_vt_terminal_resize := fun _ _ _ _ => 0
  ghostty_vt_terminal_dump_viewport := fun _ _ => ⟨100, 1⟩
  memory := fun _ _ => 255

/-- A test double whose create fails: it answers the null ref. -/
def nullNative : Native where
  ghostty_vt_terminal_new := fun _ _ _ => 0
  ghostty_vt_terminal_feed := fun _ _ _ _ => 0
  ghostty_vt_terminal_resize := fun _ _ _ _ => 0
  ghostty_vt_terminal_dump_viewport := fun _ _ => ⟨0, 0⟩
  memory := fun _ _ => 0

theorem utf8_empty : utf8 "" = [] := by decide

theorem StringNew_empty : StringNew [] = HostValue.string "" := by decide

theorem frees_append (a b : Trace) : frees (a ++ b) = frees a ++ frees b := by
  induction a with
  | nil => rfl
  | cons e a ih => cases e <;> simp [frees, ih]

theorem obtained_append (a b : Trace) : obtained (a ++ b) = obtained a + obtained b := by
  induction a with
  | nil => simp [obtained]
  | cons e a ih =>
    cases e <;> simp [obtained, ih]
    omega

theorem released_append (a b : Trace) : released (a ++ b) = released a + released b := by
  induction a with
  | nil => simp [released]
  | cons e a ih =>
    cases e <;> simp [released, ih]
    omega

theorem FreeInternal_null (tr : Trace) :
    GhosttyTerminal.FreeInternal ⟨0⟩ tr = (⟨0⟩, tr) := by
  simp [GhosttyTerminal.FreeInternal]

theorem FreeInternal_self (w : GhosttyTerminal) (tr : Trace) :
    (w.FreeInternal tr).1 = ⟨0⟩ := by
  by_cases h : w.terminal_ = 0
  · cases w; simp_all [GhosttyTerminal.FreeInternal]
  · simp [GhosttyTerminal.FreeInternal, h]

theorem Feed_self (N : Native) (w : GhosttyTerminal) (tr : Trace) (info : List JsValue) :
    (w.Feed N tr info).self = w := by
  unfold GhosttyTerminal.Feed
  split_ifs <;> rfl

theorem Resize_self (N : Native) (w : GhosttyTerminal) (tr : Trace) (info : List JsValue) :
    (w.Resize N tr info).self = w := by
  unfold GhosttyTerminal.Resize
  split_ifs <;> rfl

theorem DumpViewport_self (N : Native) (w : GhosttyTerminal) (tr : Trace)
    (info : List JsValue) : (w.DumpViewport N tr info).self = w := by
  unfold GhosttyTerminal.DumpViewport
  split_ifs <;> rfl

theorem Feed_frees (N : Native) (w : GhosttyTerminal) (tr : Trace) (info : List JsValue) :
    frees (w.Feed N tr info).trace = frees tr := by
  unfold GhosttyTerminal.Feed
  split_ifs <;> simp [frees_append, frees]

theorem Resize_frees (N : Native) (w : GhosttyTerminal) (tr : Trace) (info : List JsValue) :
    frees (w.Resize N tr info).trace = frees tr := by
  unfold GhosttyTerminal.Resize
  split_ifs <;> simp [frees_append, frees]

theorem DumpViewport_frees (N : Native) (w : GhosttyTerminal) (tr : Trace)
    (info : List JsValue) : frees (w.DumpViewport N tr info).trace = frees tr := by
  unfold GhosttyTerminal.DumpViewport
  split_ifs <;> simp [frees_append, frees]

/-- On a wrapper without a native ref every method returns its reserved value
and leaves wrapper and trace as they are. -/
theorem call_null (N : Native) (tr : Trace) (op : Op) :
    GhosttyTerminal.call N ⟨0⟩ tr op = ⟨freedRet op, ⟨0⟩, tr⟩ := by
  cases op <;>
    simp [GhosttyTerminal.call, GhosttyTerminal.Feed, GhosttyTerminal.Resize,
      GhosttyTerminal.DumpViewport, GhosttyTerminal.Free, GhosttyTerminal.FreeInternal,
      freedRet, utf8_empty, StringNew_empty]

theorem run_null (N : Native) (tr : Trace) (ops : List Op) :
    GhosttyTerminal.run N ⟨0⟩ tr ops = ⟨ops.map freedRet, ⟨0⟩, tr⟩ := by
  induction ops with
  | nil => rfl
  | cons op ops ih => simp [GhosttyTerminal.run, call_null, ih]

/-- The wrapper after a method call: free clears the ref, the others keep it. -/
theorem call_self (N : Native) (w : GhosttyTerminal) (tr : Trace) (op : Op) :
    (w.call N tr op).self = if op.isFree then ⟨0⟩ else w := by
  cases op <;>
    simp [GhosttyTerminal.call, Op.isFree, Feed_self, Resize_self, DumpViewport_self,
      GhosttyTerminal.Free, FreeInternal_self]

/-- The terminal_free calls a method adds: one on the owned ref for a free on a
wrapper that holds one, none otherwise. -/
theorem call_frees (N : Native) (w : GhosttyTerminal) (tr : Trace) (op : Op) :
    frees (w.call N tr op).trace
      = frees tr ++ (if op.isFree ∧ w.terminal_ ≠ 0 then [w.terminal_] else []) := by
  cases op with
  | feed info => simp [GhosttyTerminal.call, Op.isFree, Feed_frees]
  | resize info => simp [GhosttyTerminal.call, Op.isFree, Resize_frees]
  | dumpViewport info => simp [GhosttyTerminal.call, Op.isFree, DumpViewport_frees]
  | free info =>
    by_cases h : w.terminal_ = 0
    · simp [GhosttyTerminal.call, Op.isFree, GhosttyTerminal.Free,
        GhosttyTerminal.FreeInternal, h]
    · simp [GhosttyTerminal.call, Op.isFree, GhosttyTerminal.Free,
        GhosttyTerminal.FreeInternal, h, frees_append, frees]

/-- The wrapper after a call sequence: cleared if the sequence holds a free,
unchanged otherwise. -/
theorem run_self (N : Native) (ops : List Op) :
    ∀ (w : GhosttyTerminal) (tr : Trace),
      (w.run N tr ops).self = if ops.any Op.isFree then ⟨0⟩ else w := by
  induction ops with
  | nil => intro w tr; rfl
  | cons op ops ih =>
    intro w tr
    simp only [GhosttyTerminal.run, List.any_cons]
    rw [ih, call_self]
    by_cases hop : op.isFree = true <;> by_cases hops : ops.any Op.isFree = true <;>
      simp [hop, hops]

/-- Release bookkeeping over a call sequence followed by the destructor: the
terminal_free calls added are exactly one on the owned ref when there is one,
and none when there is none. -/
theorem run_dtor_frees (N : Native) (ops : List Op) :
    ∀ (w : GhosttyTerminal) (tr : Trace),
      frees (GhosttyTerminal.dtor (w.run N tr ops).self (w.run N tr ops).trace).2
        = frees tr ++ (if w.terminal_ ≠ 0 then [w.terminal_] else []) := by
  induction ops with
  | nil =>
    intro w tr
    by_cases h : w.terminal_ = 0
    · simp [GhosttyTerminal.run, GhosttyTerminal.dtor, GhosttyTerminal.FreeInternal, h]
    · simp [GhosttyTerminal.run, GhosttyTerminal.dtor, GhosttyTerminal.FreeInternal, h,
        frees_append, frees]
  | cons op ops ih =>
    intro w tr
    simp only [GhosttyTerminal.run]
    rw [ih, call_self, call_frees]
    by_cases hop : op.isFree = true <;> by_cases h : w.terminal_ = 0 <;> simp [hop, h]

/-- The terminal_free calls a call sequence adds: one on the owned ref if the
sequence holds a free and the wrapper holds a ref, none otherwise. -/
theorem run_frees (N : Native) (ops : List Op) :
    ∀ (w : GhosttyTerminal) (tr : Trace),
      frees (w.run N tr ops).trace
        = frees tr ++ (if ops.any Op.isFree ∧ w.terminal_ ≠ 0 then [w.terminal_] else []) := by
  induction ops with
  | nil => intro w tr; simp [GhosttyTerminal.run]
  | cons op ops ih =>
    intro w tr
    simp only [GhosttyTerminal.run]
    rw [ih, call_self, call_frees]
    by_cases hop : op.isFree = true <;> by_cases hops : ops.any Op.isFree = true <;>
      by_cases h : w.terminal_ = 0 <;> simp [hop, hops, h]

/-- What a constructor call that did not throw has done. -/
theorem ctor_ok (N : Native) (tr : Trace) (info : List JsValue)
    (h : (GhosttyTerminal.ctor N tr info).thrown = none) :
    (GhosttyTerminal.ctor N tr info).self.terminal_
        = N.ghostty_vt_terminal_new tr (to_uint16 (Uint32Value (arg info 0)))
            (to_uint16 (Uint32Value (arg info 1))) ∧
      (GhosttyTerminal.ctor N tr info).self.terminal_ ≠ 0 ∧
      (GhosttyTerminal.ctor N tr info).trace
        = tr ++ [NativeCall.terminal_new (to_uint16 (Uint32Value (arg info 0)))
            (to_uint16 (Uint32Value (arg info 1)))
            (GhosttyTerminal.ctor N tr info).self.terminal_] := by
  simp only [GhosttyTerminal.ctor] at h ⊢
  split_ifs at h ⊢ with h1 h2
  exact ⟨rfl, h2, rfl⟩

/-! ## Lifecycle -/

/-- C1: exactly-once release. For a wrapper whose construction did not throw,
so that native create returned a non-null ref r which the wrapper owns, and for
every finite sequence ops of feed, resize, dumpViewport and free calls with
arbitrary arguments followed by finalization, the terminal_free calls of the
whole lifetime are exactly one call, on r. Without a free in ops no
terminal_free is made before finalization; with one or more, the single call is
already made before finalization. -/
theorem release_exactly_once (N : Native) (tr : Trace) (info : List JsValue)
    (ops : List Op) (h : (GhosttyTerminal.ctor N tr info).thrown = none) :
    (GhosttyTerminal.ctor N tr info).self.terminal_
        = N.ghostty_vt_terminal_new tr (to_uint16 (Uint32Value (arg info 0)))
            (to_uint16 (Uint32Value (arg info 1))) ∧
      (GhosttyTerminal.ctor N tr info).self.terminal_ ≠ 0 ∧
      frees (lifetime N tr info ops)
        = frees tr ++ [(GhosttyTerminal.ctor N tr info).self.terminal_] ∧
      (ops.any Op.isFree = false →
        frees ((GhosttyTerminal.ctor N tr info).self.run N
          (GhosttyTerminal.ctor N tr info).trace ops).trace = frees tr) ∧
      (ops.any Op.isFree = true →
        frees ((GhosttyTerminal.ctor N tr info).self.run N
          (GhosttyTerminal.ctor N tr info).trace ops).trace
          = frees tr ++ [(GhosttyTerminal.ctor N tr info).self.terminal_]) := by
  obtain ⟨hr, hne, htr⟩ := ctor_ok N tr info h
  have hfr : frees (GhosttyTerminal.ctor N tr info).trace = frees tr := by
    rw [htr, frees_append]; simp [frees]
  refine ⟨hr, hne, ?_, ?_, ?_⟩
  · simp only [lifetime]
    rw [run_dtor_frees, hfr]
    simp [hne]
  · intro hno
    rw [run_frees, hfr]
    simp [hno]
  · intro hyes
    rw [run_frees, hfr]
    simp [hyes, hne]

/-- Witness for C1: a handle of 80 by 24 over the test double, fed, freed twice,
dumped and finalized. -/
theorem release_exactly_once_witness :
    (GhosttyTerminal.ctor stubNative []
        [JsValue.number (JsNumber.finite 80), JsValue.number (JsNumber.finite 24)]).thrown
        = none ∧
      frees (lifetime stubNative []
        [JsValue.number (JsNumber.finite 80), JsValue.number (JsNumber.finite 24)]
        [Op.feed [JsValue.string "hi"], Op.free [], Op.free [], Op.dumpViewport []])
        = frees [] ++ [(GhosttyTerminal.ctor stubNative []
            [JsValue.number (JsNumber.finite 80),
              JsValue.number (JsNumber.finite 24)]).self.terminal_] :=
  ⟨by decide,
    (release_exactly_once stubNative []
      [JsValue.number (JsNumber.finite 80), JsValue.number (JsNumber.finite 24)]
      [Op.feed [JsValue.string "hi"], Op.free [], Op.free [], Op.dumpViewport []]
      (by decide)).2.2.1⟩

/-- C2: freed is absorbing and guarded. Whatever the wrapper state before, once
free has been called the ref is null, and every later finite sequence of calls
returns the reserved values (1 for feed and resize, the empty string for
dumpViewport, undefined for free), leaves the ref null and adds no native call
to the trace. -/
theorem freed_absorbing (N : Native) (w : GhosttyTerminal) (tr : Trace)
    (info : List JsValue) (ops : List Op) :
    (w.Free tr info).self.terminal_ = 0 ∧
      GhosttyTerminal.run N (w.Free tr info).self (w.Free tr info).trace ops
        = ⟨ops.map freedRet, ⟨0⟩, (w.Free tr info).trace⟩ ∧
      (∀ i, freedRet (Op.feed i) = HostValue.number 1) ∧
      (∀ i, freedRet (Op.resize i) = HostValue.number 1) ∧
      (∀ i, freedRet (Op.dumpViewport i) = HostValue.string "") ∧
      (∀ i, freedRet (Op.free i) = HostValue.undefined) := by
  have hs : (w.Free tr info).self = ⟨0⟩ := by
    simp [GhosttyTerminal.Free, FreeInternal_self]
  refine ⟨by rw [hs], ?_, fun _ => rfl, fun _ => rfl, fun _ => rfl, fun _ => rfl⟩
  rw [hs, run_null]

/-- C3: free is idempotent. In every wrapper state a second free right after a
first one returns undefined like the first, and leaves the wrapper and the
trace exactly as the first left them: it makes no native call. -/
theorem free_idempotent (w : GhosttyTerminal) (tr : Trace) (info info2 : List JsValue) :
    GhosttyTerminal.Free (w.Free tr info).self (w.Free tr info).trace info2
        = w.Free tr info ∧
      (w.Free tr info).ret = HostValue.undefined := by
  have hs : (w.Free tr info).self = ⟨0⟩ := by
    simp [GhosttyTerminal.Free, FreeInternal_self]
  constructor
  · rw [hs]
    simp only [GhosttyTerminal.Free, FreeInternal_null]
    rw [FreeInternal_self]
  · rfl

/-! ## Status codes of the mutators -/

/-- C4: the result of feed is determined by liveness and argument shape, in
this order: not live gives 1; live without arguments gives 2; live with a byte
buffer first makes one native feed call with that buffer and its length and
returns the native status; live with a text first makes one native feed call
with the UTF-8 bytes of the text and their count and returns the native status;
live with anything else first gives 3. Only the two forwarding cases add a
native call, and the wrapper is never changed. -/
theorem feed_contract (N : Native) (w : GhosttyTerminal) (tr : Trace)
    (info : List JsValue) :
    (w.Feed N tr info).self = w ∧
      (w.terminal_ = 0 → w.Feed N tr info = ⟨HostValue.number 1, w, tr⟩) ∧
      (w.terminal_ ≠ 0 → info = [] → w.Feed N tr info = ⟨HostValue.number 2, w, tr⟩) ∧
      (∀ data rest, w.terminal_ ≠ 0 → info = JsValue.buffer data :: rest →
        w.Feed N tr info
          = ⟨HostValue.number (N.ghostty_vt_terminal_feed tr w.terminal_ data data.length), w,
              tr ++ [NativeCall.terminal_feed w.terminal_ data data.length
                (N.ghostty_vt_terminal_feed tr w.terminal_ data data.length)]⟩) ∧
      (∀ s rest, w.terminal_ ≠ 0 → info = JsValue.string s :: rest →
        w.Feed N tr info
          = ⟨HostValue.number
                (N.ghostty_vt_terminal_feed tr w.terminal_ (utf8 s) (utf8 s).length), w,
              tr ++ [NativeCall.terminal_feed w.terminal_ (utf8 s) (utf8 s).length
                (N.ghostty_vt_terminal_feed tr w.terminal_ (utf8 s) (utf8 s).length)]⟩) ∧
      (∀ v rest, w.terminal_ ≠ 0 → info = v :: rest → IsBuffer v = false →
        IsString v = false → w.Feed N tr info = ⟨HostValue.number 3, w, tr⟩) := by
  refine ⟨Feed_self N w tr info, ?_, ?_, ?_, ?_, ?_⟩
  · intro h
    simp [GhosttyTerminal.Feed, h]
  · intro h hi
    simp [GhosttyTerminal.Feed, h, hi]
  · intro data rest h hi
    simp [GhosttyTerminal.Feed, h, hi, arg, IsBuffer, BufferData]
  · intro s rest h hi
    simp [GhosttyTerminal.Feed, h, hi, arg, IsBuffer, IsString, Utf8Value]
  · intro v rest h hi hb hs
    simp [GhosttyTerminal.Feed, h, hi, arg, hb, hs]

/-- Witness for C4: the five cases on the test double. -/
theorem feed_contract_witness :
    GhosttyTerminal.Feed stubNative ⟨0⟩ [] [JsValue.buffer [104, 105]]
        = ⟨HostValue.number 1, ⟨0⟩, []⟩ ∧
      GhosttyTerminal.Feed stubNative ⟨7⟩ [] [] = ⟨HostValue.number 2, ⟨7⟩, []⟩ ∧
      GhosttyTerminal.Feed stubNative ⟨7⟩ [] [JsValue.buffer [104, 105]]
        = ⟨HostValue.number 0, ⟨7⟩, [NativeCall.terminal_feed 7 [104, 105] 2 0]⟩ ∧
      GhosttyTerminal.Feed stubNative ⟨7⟩ [] [JsValue.string "hi"]
        = ⟨HostValue.number 0, ⟨7⟩, [NativeCall.terminal_feed 7 [104, 105] 2 0]⟩ ∧
      GhosttyTerminal.Feed stubNative ⟨7⟩ []
          [JsValue.number (JsNumber.finite 5), JsValue.string "hi"]
        = ⟨HostValue.number 3, ⟨7⟩, []⟩ :=
  ⟨(feed_contract stubNative ⟨0⟩ [] [JsValue.buffer [104, 105]]).2.1 rfl,
    (feed_contract stubNative ⟨7⟩ [] []).2.2.1 (by decide) rfl,
    (feed_contract stubNative ⟨7⟩ [] [JsValue.buffer [104, 105]]).2.2.2.1
      [104, 105] [] (by decide) rfl,
    (feed_contract stubNative ⟨7⟩ [] [JsValue.string "hi"]).2.2.2.2.1
      "hi" [] (by decide) rfl,
    (feed_contract stubNative ⟨7⟩ []
      [JsValue.number (JsNumber.finite 5), JsValue.string "hi"]).2.2.2.2.2
      (JsValue.number (JsNumber.finite 5)) [JsValue.string "hi"] (by decide) rfl rfl rfl⟩

/-- C5, as stated, fails: on a live handle resize(65536, 70000), both arguments
numeric and out of the unsigned 16-bit range, is not rejected. It reaches the
native resize primitive with the arguments reduced modulo 65536, that is with
cols 0 and rows 4464, and returns the native status (0 on the test double)
rather than a reserved code. -/
theorem resize_out_of_range_reaches_native :
    outOfUint16Range (JsValue.number (JsNumber.finite 65536)) = true ∧
      outOfUint16Range (JsValue.number (JsNumber.finite 70000)) = true ∧
      GhosttyTerminal.Resize stubNative ⟨7⟩ []
          [JsValue.number (JsNumber.finite 65536), JsValue.number (JsNumber.finite 70000)]
        = ⟨HostValue.number 0, ⟨7⟩, [NativeCall.terminal_resize 7 0 4464 0]⟩ := by
  decide

/-- C5, amended: on a live handle, an argument list in which one of the two
arguments is missing or not a number makes resize return the reserved code 2
without any native call and without changing the wrapper. Two numeric
arguments, in range or not, are reduced to their unsigned 32-bit value modulo
65536 and forwarded in exactly one native resize call whose status is returned
unmodified; the wrapper is unchanged. -/
theorem resize_contract (N : Native) (w : GhosttyTerminal) (tr : Trace)
    (info : List JsValue) (h : w.terminal_ ≠ 0) :
    (w.Resize N tr info).self = w ∧
      (info.length < 2 ∨ IsNumber (arg info 0) = false ∨ IsNumber (arg info 1) = false →
        w.Resize N tr info = ⟨HostValue.number 2, w, tr⟩) ∧
      (2 ≤ info.length → IsNumber (arg info 0) = true → IsNumber (arg info 1) = true →
        w.Resize N tr info
          = ⟨HostValue.number (N.ghostty_vt_terminal_resize tr w.terminal_
                (Uint32Value (arg info 0) % 2 ^ 16) (Uint32Value (arg info 1) % 2 ^ 16)), w,
              tr ++ [NativeCall.terminal_resize w.terminal_
                (Uint32Value (arg info 0) % 2 ^ 16) (Uint32Value (arg info 1) % 2 ^ 16)
                (N.ghostty_vt_terminal_resize tr w.terminal_
                  (Uint32Value (arg info 0) % 2 ^ 16)
                  (Uint32Value (arg info 1) % 2 ^ 16))]⟩) := by
  refine ⟨Resize_self N w tr info, ?_, ?_⟩
  · intro hbad
    have hg : (decide (info.length < 2) || !IsNumber (arg info 0) || !IsNumber (arg info 1))
        = true := by
      rcases hbad with h1 | h1 | h1 <;> simp [h1]
    simp [GhosttyTerminal.Resize, h, hg]
  · intro h2 h0 h1
    have hlen : ¬ info.length < 2 := by omega
    simp [GhosttyTerminal.Resize, h, hlen, h0, h1, to_uint16]

/-- Witness for C5 amended: on the test double a resize with a text in place of
rows is rejected with code 2, without a native call. -/
theorem resize_contract_witness :
    GhosttyTerminal.Resize stubNative ⟨7⟩ []
        [JsValue.number (JsNumber.finite 80), JsValue.string "24"]
      = ⟨HostValue.number 2, ⟨7⟩, []⟩ :=
  (resize_contract stubNative ⟨7⟩ []
    [JsValue.number (JsNumber.finite 80), JsValue.string "24"] (by decide)).2.1
    (Or.inr (Or.inr rfl))

theorem JsNumber.toUint32_bound (n : JsNumber) : n.Uint32Value < 2 ^ 32 := by
  cases n with
  | finite q =>
    simp only [JsNumber.Uint32Value]
    have h1 := Int.emod_nonneg (Int.tdiv q.num (q.den : Int)) (by norm_num : (2 ^ 32 : Int) ≠ 0)
    have h2 := Int.emod_lt_of_pos (Int.tdiv q.num (q.den : Int))
      (by norm_num : (0 : Int) < 2 ^ 32)
    omega
  | nan => simp [JsNumber.Uint32Value]
  | posInf => simp [JsNumber.Uint32Value]
  | negInf => simp [JsNumber.Uint32Value]

theorem Uint32Value_lt (v : JsValue) : Uint32Value v < 2 ^ 32 := by
  cases v with
  | number n => exact JsNumber.toUint32_bound n
  | _ => simp [Uint32Value]

/-- The factory and the constructor agree on every argument list. -/
theorem Create_eq_ctor (N : Native) (tr : Trace) (info : List JsValue) :
    GhosttyTerminal.Create N tr info = GhosttyTerminal.ctor N tr info := by
  match info with
  | [] => simp [GhosttyTerminal.Create, GhosttyTerminal.ctor, arg, IsNumber]
  | [a] => simp [GhosttyTerminal.Create, GhosttyTerminal.ctor, arg, IsNumber]
  | a :: b :: rest =>
    have hlen : ¬ (rest.length + 1 + 1 < 2) := by omega
    simp [GhosttyTerminal.Create, GhosttyTerminal.ctor, arg, hlen]

/-- C8: the constructor contract. With fewer than two arguments, or with a
first or second argument that is not a number, construction throws the
TypeError and makes no native call. Otherwise it makes exactly one native
create call, with cols and rows the unsigned 32-bit values of the two
arguments reduced modulo 65536 (so both lie in 0..65535; 65536 gives 0 and
65537 gives 1); it throws (the Error) if and only if that call returned null,
and when it does not throw the wrapper holds the returned, non-null ref. The
factory createTerminal behaves as the constructor. -/
theorem ctor_contract (N : Native) (tr : Trace) (info : List JsValue) :
    (info.length < 2 ∨ IsNumber (arg info 0) = false ∨ IsNumber (arg info 1) = false →
        GhosttyTerminal.ctor N tr info
          = ⟨some (Thrown.TypeError "Expected cols, rows"), ⟨0⟩, tr⟩) ∧
      (2 ≤ info.length → IsNumber (arg info 0) = true → IsNumber (arg info 1) = true →
        (GhosttyTerminal.ctor N tr info).trace
            = tr ++ [NativeCall.terminal_new
                (Uint32Value (arg info 0) % 2 ^ 16) (Uint32Value (arg info 1) % 2 ^ 16)
                (N.ghostty_vt_terminal_new tr
                  (Uint32Value (arg info 0) % 2 ^ 16) (Uint32Value (arg info 1) % 2 ^ 16))] ∧
          ((GhosttyTerminal.ctor N tr info).thrown
              = some (Thrown.Error "Failed to create Ghostty VT terminal")
            ↔ N.ghostty_vt_terminal_new tr
                (Uint32Value (arg info 0) % 2 ^ 16) (Uint32Value (arg info 1) % 2 ^ 16) = 0) ∧
          ((GhosttyTerminal.ctor N tr info).thrown = none
            ↔ N.ghostty_vt_terminal_new tr
                (Uint32Value (arg info 0) % 2 ^ 16) (Uint32Value (arg info 1) % 2 ^ 16) ≠ 0) ∧
          (GhosttyTerminal.ctor N tr info).self.terminal_
            = N.ghostty_vt_terminal_new tr
                (Uint32Value (arg info 0) % 2 ^ 16) (Uint32Value (arg info 1) % 2 ^ 16)) ∧
      (Uint32Value (arg info 0) < 2 ^ 32 ∧ Uint32Value (arg info 1) < 2 ^ 32) ∧
      (Uint32Value (arg info 0) % 2 ^ 16 ≤ 65535 ∧ Uint32Value (arg info 1) % 2 ^ 16 ≤ 65535) ∧
      Uint32Value (JsValue.number (JsNumber.finite 65536)) % 2 ^ 16 = 0 ∧
      Uint32Value (JsValue.number (JsNumber.finite 65537)) % 2 ^ 16 = 1 ∧
      GhosttyTerminal.Create N tr info = GhosttyTerminal.ctor N tr info := by
  refine ⟨?_, ?_, ⟨Uint32Value_lt _, Uint32Value_lt _⟩, ⟨by omega, by omega⟩, by decide,
    by decide, Create_eq_ctor N tr info⟩
  · intro hbad
    have hg : (decide (info.length < 2) || !IsNumber (arg info 0) || !IsNumber (arg info 1))
        = true := by
      rcases hbad with h1 | h1 | h1 <;> simp [h1]
    simp [GhosttyTerminal.ctor, hg]
  · intro h2 h0 h1
    have hg : (decide (info.length < 2) || !IsNumber (arg info 0) || !IsNumber (arg info 1))
        = false := by
      have hlen : ¬ info.length < 2 := by omega
      simp [hlen, h0, h1]
    simp only [GhosttyTerminal.ctor, to_uint16, hg, Bool.false_eq_true, if_false]
    generalize N.ghostty_vt_terminal_new tr
      (Uint32Value (arg info 0) % 2 ^ 16) (Uint32Value (arg info 1) % 2 ^ 16) = t
    by_cases ht : t = 0 <;> simp [ht]

/-- Witness for C8: construction from a text and a number throws the TypeError
without a native call; construction from 65537 and 24 creates a terminal of 1
by 24. -/
theorem ctor_contract_witness :
    GhosttyTerminal.ctor stubNative [] [JsValue.string "80", JsValue.number (JsNumber.finite 24)]
        = ⟨some (Thrown.TypeError "Expected cols, rows"), ⟨0⟩, []⟩ ∧
      (GhosttyTerminal.ctor stubNative []
          [JsValue.number (JsNumber.finite 65537), JsValue.number (JsNumber.finite 24)]).trace
        = [NativeCall.terminal_new 1 24 7] :=
  ⟨(ctor_contract stubNative []
      [JsValue.string "80", JsValue.number (JsNumber.finite 24)]).1 (Or.inr (Or.inl rfl)),
    ((ctor_contract stubNative []
      [JsValue.number (JsNumber.finite 65537), JsValue.number (JsNumber.finite 24)]).2.1
      (by decide) rfl rfl).1⟩

/-! ## Handle validity -/

/-- The constructor leaves a non-null ref exactly when it did not throw. -/
theorem ctor_live_iff (N : Native) (tr : Trace) (info : List JsValue) :
    (GhosttyTerminal.ctor N tr info).self.terminal_ ≠ 0
      ↔ (GhosttyTerminal.ctor N tr info).thrown = none := by
  simp only [GhosttyTerminal.ctor]
  split_ifs with h1 h2
  · simp
  · simp [h2]
  · simp [h2]

/-- The constructor adds no terminal_free call. -/
theorem ctor_frees (N : Native) (tr : Trace) (info : List JsValue) :
    frees (GhosttyTerminal.ctor N tr info).trace = frees tr := by
  simp only [GhosttyTerminal.ctor]
  split_ifs <;> simp [frees_append, frees]

/-- C10: handle validity. After construction from info and any sequence ops of
method calls, the owned ref is non-null if and only if construction did not
throw and ops holds no free; after finalization it is null. After a
construction that threw (bad arguments, or a null ref from native create) the
ref is null, every method returns its reserved value (1 for feed and resize,
the empty string for dumpViewport, undefined for free) without a native call,
and the method calls and finalization together add nothing to the trace, so no
terminal_free is made in the whole lifetime. Feed, resize and dumpViewport
never change the ref. -/
theorem handle_validity (N : Native) (tr : Trace) (info : List JsValue) (ops : List Op)
    (w : GhosttyTerminal) (tr2 : Trace) (info2 : List JsValue) :
    (((GhosttyTerminal.ctor N tr info).self.run N
          (GhosttyTerminal.ctor N tr info).trace ops).self.terminal_ ≠ 0
        ↔ ((GhosttyTerminal.ctor N tr info).thrown = none ∧ ops.any Op.isFree = false)) ∧
      (GhosttyTerminal.dtor
          ((GhosttyTerminal.ctor N tr info).self.run N
            (GhosttyTerminal.ctor N tr info).trace ops).self
          ((GhosttyTerminal.ctor N tr info).self.run N
            (GhosttyTerminal.ctor N tr info).trace ops).trace).1.terminal_ = 0 ∧
      ((GhosttyTerminal.ctor N tr info).thrown ≠ none →
        (GhosttyTerminal.ctor N tr info).self.terminal_ = 0 ∧
          (GhosttyTerminal.ctor N tr info).self.run N (GhosttyTerminal.ctor N tr info).trace ops
            = ⟨ops.map freedRet, ⟨0⟩, (GhosttyTerminal.ctor N tr info).trace⟩ ∧
          lifetime N tr info ops = (GhosttyTerminal.ctor N tr info).trace ∧
          frees (lifetime N tr info ops) = frees tr) ∧
      ((w.Feed N tr2 info2).self.terminal_ = w.terminal_ ∧
        (w.Resize N tr2 info2).self.terminal_ = w.terminal_ ∧
        (w.DumpViewport N tr2 info2).self.terminal_ = w.terminal_) := by
  refine ⟨?_, ?_, ?_, ?_⟩
  · rw [run_self, ← ctor_live_iff]
    by_cases hops : ops.any Op.isFree = true <;> simp [hops]
  · simp [GhosttyTerminal.dtor, FreeInternal_self]
  · intro hthrown
    have h0 : (GhosttyTerminal.ctor N tr info).self.terminal_ = 0 := by
      by_contra hne
      exact hthrown ((ctor_live_iff N tr info).1 hne)
    have hs : (GhosttyTerminal.ctor N tr info).self = ⟨0⟩ := by
      cases hc : (GhosttyTerminal.ctor N tr info).self
      rw [hc] at h0
      simp only at h0
      rw [h0]
    have hrun := run_null N (GhosttyTerminal.ctor N tr info).trace ops
    refine ⟨h0, ?_, ?_, ?_⟩
    · rw [hs]; exact hrun
    · simp only [lifetime]
      rw [hs, hrun]
      simp [GhosttyTerminal.dtor, FreeInternal_null]
    · simp only [lifetime]
      rw [hs, hrun]
      simp [GhosttyTerminal.dtor, FreeInternal_null]
      exact ctor_frees N tr info
  · rw [Feed_self, Resize_self, DumpViewport_self]
    exact ⟨rfl, rfl, rfl⟩

/-- Witness for C10: construction over an engine whose create answers null
throws, and the lifetime that follows makes no call beyond that create. -/
theorem handle_validity_witness :
    (GhosttyTerminal.ctor nullNative []
        [JsValue.number (JsNumber.finite 80), JsValue.number (JsNumber.finite 24)]).thrown
        ≠ none ∧
      lifetime nullNative []
          [JsValue.number (JsNumber.finite 80), JsValue.number (JsNumber.finite 24)]
          [Op.feed [JsValue.string "hi"], Op.free [], Op.dumpViewport []]
        = (GhosttyTerminal.ctor nullNative []
            [JsValue.number (JsNumber.finite 80),
              JsValue.number (JsNumber.finite 24)]).trace :=
  ⟨by decide,
    ((handle_validity nullNative []
      [JsValue.number (JsNumber.finite 80), JsValue.number (JsNumber.finite 24)]
      [Op.feed [JsValue.string "hi"], Op.free [], Op.dumpViewport []]
      ⟨0⟩ [] []).2.2.1 (by decide)).2.2.1⟩

/-! ## Host text from bytes -/

theorem or_192 : ∀ y, y < 32 → y ||| 192 = y + 192 := by decide

theorem or_224 : ∀ y, y < 16 → y ||| 224 = y + 224 := by decide

theorem or_240 : ∀ y, y < 8 → y ||| 240 = y + 240 := by decide

theorem or_128 : ∀ y, y < 64 → y ||| 128 = y + 128 := by decide

theorem and_31 (x : Nat) : x &&& 31 = x % 32 := Nat.and_pow_two_sub_one_eq_mod x 5

theorem and_15 (x : Nat) : x &&& 15 = x % 16 := Nat.and_pow_two_sub_one_eq_mod x 4

theorem and_7 (x : Nat) : x &&& 7 = x % 8 := Nat.and_pow_two_sub_one_eq_mod x 3

theorem and_63 (x : Nat) : x &&& 63 = x % 64 := Nat.and_pow_two_sub_one_eq_mod x 6

theorem shr_toNat (v : UInt32) (k : UInt32) (n : Nat)
    (hk : (UInt32.mod k 32).toBitVec.toNat = n) :
    (v >>> k).toUInt8.toNat = v.toNat / 2 ^ n % 256 := by
  simp only [UInt8.toNat, UInt32.toNat, HShiftRight.hShiftRight, ShiftRight.shiftRight,
    UInt32.shiftRight, UInt32.toUInt8, Nat.toUInt8, UInt8.ofNat]
  simp [hk, Nat.shiftRight_eq_div_pow]

theorem low_toNat (v : UInt32) : v.toUInt8.toNat = v.toNat % 256 := by
  simp [UInt8.toNat, UInt32.toNat, UInt32.toUInt8, Nat.toUInt8, UInt8.ofNat]

theorem tail_toNat (x : UInt8) : (x &&& 63 ||| 128).toNat = x.toNat % 64 + 128 := by
  have : (x &&& 63 ||| 128).toNat = (x.toNat &&& 63) ||| 128 := by
    simp only [UInt8.toNat, HAnd.hAnd, AndOp.and, UInt8.land, HOr.hOr, OrOp.or, UInt8.lor]
    simp
    rfl
  rw [this, and_63, or_128 _ (Nat.mod_lt _ (by decide))]

theorem lead2_toNat (x : UInt8) : (x &&& 31 ||| 192).toNat = x.toNat % 32 + 192 := by
  have : (x &&& 31 ||| 192).toNat = (x.toNat &&& 31) ||| 192 := by
    simp only [UInt8.toNat, HAnd.hAnd, AndOp.and, UInt8.land, HOr.hOr, OrOp.or, UInt8.lor]
    simp
    rfl
  rw [this, and_31, or_192 _ (Nat.mod_lt _ (by decide))]

theorem lead3_toNat (x : UInt8) : (x &&& 15 ||| 224).toNat = x.toNat % 16 + 224 := by
  have : (x &&& 15 ||| 224).toNat = (x.toNat &&& 15) ||| 224 := by
    simp only [UInt8.toNat, HAnd.hAnd, AndOp.and, UInt8.land, HOr.hOr, OrOp.or, UInt8.lor]
    simp
    rfl
  rw [this, and_15, or_224 _ (Nat.mod_lt _ (by decide))]

theorem lead4_toNat (x : UInt8) : (x &&& 7 ||| 240).toNat = x.toNat % 8 + 240 := by
  have : (x &&& 7 ||| 240).toNat = (x.toNat &&& 7) ||| 240 := by
    simp only [UInt8.toNat, HAnd.hAnd, AndOp.and, UInt8.land, HOr.hOr, OrOp.or, UInt8.lor]
    simp
    rfl
  rw [this, and_7, or_240 _ (Nat.mod_lt _ (by decide))]

/-- The UTF-8 bytes of a character, as numbers, are the arithmetic encoding of
its code point. -/
theorem utf8EncodeChar_toNat (c : Char) :
    (String.utf8EncodeChar c).map UInt8.toNat = encNat c.toNat := by
  have h6 := shr_toNat c.val 6 6 (by decide)
  have h12 := shr_toNat c.val 12 12 (by decide)
  have h18 := shr_toNat c.val 18 18 (by decide)
  have h0 := low_toNat c.val
  have hlt : c.val.toNat < 2 ^ 32 := c.val.toBitVec.isLt
  have e1 : (c.val ≤ 127) ↔ c.val.toNat ≤ 127 := by
    rw [UInt32.le_def, BitVec.le_def]; rfl
  have e2 : (c.val ≤ 2047) ↔ c.val.toNat ≤ 2047 := by
    rw [UInt32.le_def, BitVec.le_def]; rfl
  have e3 : (c.val ≤ 65535) ↔ c.val.toNat ≤ 65535 := by
    rw [UInt32.le_def, BitVec.le_def]; rfl
  simp only [String.utf8EncodeChar, encNat, Char.toNat, e1, e2, e3]
  split_ifs with a b d
  · simp only [List.map, h0]
    congr 1
    omega
  · simp only [List.map, tail_toNat, lead2_toNat, h0, h6]
    congr 1
    · omega
    · congr 1; omega
  · simp only [List.map, tail_toNat, lead3_toNat, h0, h6, h12]
    congr 1
    · omega
    · congr 1
      · omega
      · congr 1; omega
  · simp only [List.map, tail_toNat, lead4_toNat, h0, h6, h12, h18]
    congr 1
    · omega
    · congr 1
      · omega
      · congr 1
        · omega
        · congr 1; omega

/-- Decoding the encoding of a scalar value gives the value back and leaves no
sequence open. -/
theorem utf8DecodeFrom_encNat (v : Nat) (hv : v < 0xd800 ∨ (0xdfff < v ∧ v < 0x110000))
    (rest : List Nat) :
    utf8DecodeFrom Utf8State.init (encNat v ++ rest)
      = v :: utf8DecodeFrom Utf8State.init rest := by
  unfold encNat
  split_ifs with a b d
  · simp [utf8DecodeFrom, utf8Lead, Utf8State.init, a]
  · obtain ⟨b1, hb1⟩ : ∃ b1, b1 = v / 64 % 32 + 192 := ⟨_, rfl⟩
    obtain ⟨b2, hb2⟩ : ∃ b2, b2 = v % 64 + 128 := ⟨_, rfl⟩
    rw [← hb1, ← hb2]
    have h1 : ¬ (b1 ≤ 127) := by omega
    have h2 : 194 ≤ b1 ∧ b1 ≤ 223 := by omega
    have h3 : 128 ≤ b2 ∧ b2 ≤ 191 := by omega
    simp [utf8DecodeFrom, utf8Lead, Utf8State.init, h1, h2, h3]
    omega
  · obtain ⟨b1, hb1⟩ : ∃ b1, b1 = v / 4096 % 16 + 224 := ⟨_, rfl⟩
    obtain ⟨b2, hb2⟩ : ∃ b2, b2 = v / 64 % 64 + 128 := ⟨_, rfl⟩
    obtain ⟨b3, hb3⟩ : ∃ b3, b3 = v % 64 + 128 := ⟨_, rfl⟩
    rw [← hb1, ← hb2, ← hb3]
    have h1 : ¬ (b1 ≤ 127) := by omega
    have h2 : ¬ (194 ≤ b1 ∧ b1 ≤ 223) := by omega
    have h3 : 224 ≤ b1 ∧ b1 ≤ 239 := by omega
    have h4 : (if b1 = 224 then 160 else 128) ≤ b2 := by split_ifs <;> omega
    have h5 : b2 ≤ (if b1 = 237 then 159 else 191) := by split_ifs <;> omega
    have h6 : 128 ≤ b3 ∧ b3 ≤ 191 := by omega
    simp [utf8DecodeFrom, utf8Lead, Utf8State.init, h1, h2, h3, h4, h5, h6]
    omega
  · obtain ⟨b1, hb1⟩ : ∃ b1, b1 = v / 262144 % 8 + 240 := ⟨_, rfl⟩
    obtain ⟨b2, hb2⟩ : ∃ b2, b2 = v / 4096 % 64 + 128 := ⟨_, rfl⟩
    obtain ⟨b3, hb3⟩ : ∃ b3, b3 = v / 64 % 64 + 128 := ⟨_, rfl⟩
    obtain ⟨b4, hb4⟩ : ∃ b4, b4 = v % 64 + 128 := ⟨_, rfl⟩
    rw [← hb1, ← hb2, ← hb3, ← hb4]
    have h1 : ¬ (b1 ≤ 127) := by omega
    have h2 : ¬ (194 ≤ b1 ∧ b1 ≤ 223) := by omega
    have h3 : ¬ (224 ≤ b1 ∧ b1 ≤ 239) := by omega
    have h3b : 240 ≤ b1 ∧ b1 ≤ 244 := by omega
    have h4 : (if b1 = 240 then 144 else 128) ≤ b2 := by split_ifs <;> omega
    have h5 : b2 ≤ (if b1 = 244 then 143 else 191) := by split_ifs <;> omega
    have h6 : 128 ≤ b3 ∧ b3 ≤ 191 := by omega
    have h7 : 128 ≤ b4 ∧ b4 ≤ 191 := by omega
    simp [utf8DecodeFrom, utf8Lead, Utf8State.init, h1, h2, h3, h3b, h4, h5, h6, h7]
    omega

theorem utf8_cons (c : Char) (cs : List Char) :
    utf8 (String.mk (c :: cs)) = encNat c.toNat ++ utf8 (String.mk cs) := by
  simp [utf8, String.toUTF8, ← utf8EncodeChar_toNat]

/-- Decoding the UTF-8 bytes of a text gives back its code points. -/
theorem utf8DecodeFrom_utf8 (cs : List Char) :
    utf8DecodeFrom Utf8State.init (utf8 (String.mk cs)) = cs.map Char.toNat := by
  induction cs with
  | nil => decide
  | cons c cs ih =>
    rw [utf8_cons, utf8DecodeFrom_encNat c.toNat c.valid, ih]
    rfl

/-- Well-formed bytes come through unchanged: the host text made from the UTF-8
bytes of a text is that text. -/
theorem StringNew_utf8 (s : String) : StringNew (utf8 s) = HostValue.string s := by
  cases s with
  | mk cs =>
    simp only [StringNew, textOf, utf8DecodeFrom_utf8, List.map_map]
    congr 2
    have : (Char.ofNat ∘ Char.toNat) = id := by
      funext c; simp
    rw [this, List.map_id]

theorem utf8Lead_ok (b : Nat) :
    (utf8Lead b).2.needed = 0 ∨ 128 ≤ (utf8Lead b).2.lower := by
  unfold utf8Lead
  split_ifs <;> simp [Utf8State.init]

/-- An ASCII byte always comes out as itself, after at most one replacement
character for a sequence it cuts short, and leaves no sequence open. -/
theorem utf8DecodeFrom_ascii_cons (st : Utf8State) (hst : st.needed = 0 ∨ 128 ≤ st.lower)
    (b : Nat) (hb : b ≤ 127) (bs : List Nat) :
    ∃ pre, utf8DecodeFrom st (b :: bs) = pre ++ b :: utf8DecodeFrom Utf8State.init bs := by
  have hl : utf8Lead b = ([b], Utf8State.init) := by simp [utf8Lead, hb]
  by_cases h0 : st.needed = 0
  · exact ⟨[], by simp [utf8DecodeFrom, h0, hl]⟩
  · have hlow : 128 ≤ st.lower := by
      rcases hst with h | h
      · exact absurd h h0
      · exact h
    have hr : ¬ (st.lower ≤ b ∧ b ≤ st.upper) := by omega
    exact ⟨[0xFFFD], by simp [utf8DecodeFrom, h0, hl, hr]⟩

theorem utf8DecodeFrom_ascii (lit : List Nat) (hlit : ∀ b ∈ lit, b ≤ 127) (rest : List Nat) :
    utf8DecodeFrom Utf8State.init (lit ++ rest)
      = lit ++ utf8DecodeFrom Utf8State.init rest := by
  induction lit with
  | nil => rfl
  | cons b lit ih =>
    have hb : b ≤ 127 := hlit b (List.mem_cons_self _ _)
    have hl : utf8Lead b = ([b], Utf8State.init) := by simp [utf8Lead, hb]
    have ih2 := ih (fun x hx => hlit x (List.mem_cons_of_mem _ hx))
    simp only [List.cons_append, utf8DecodeFrom, Utf8State.init, hl] at ih2 ⊢
    simp [ih2]

/-- Decoding a prefix leaves the decoder in some state from which the rest is
decoded on its own. -/
theorem utf8DecodeFrom_append (bs : List Nat) :
    ∀ st : Utf8State, (st.needed = 0 ∨ 128 ≤ st.lower) →
      ∃ pre st2, (st2.needed = 0 ∨ 128 ≤ st2.lower) ∧
        ∀ rest, utf8DecodeFrom st (bs ++ rest) = pre ++ utf8DecodeFrom st2 rest := by
  induction bs with
  | nil => intro st hst; exact ⟨[], st, hst, fun rest => rfl⟩
  | cons b bs ih =>
    intro st hst
    by_cases h0 : st.needed = 0
    · obtain ⟨pre, st2, hok, h⟩ := ih (utf8Lead b).2 (utf8Lead_ok b)
      exact ⟨(utf8Lead b).1 ++ pre, st2, hok, fun rest => by
        simp [utf8DecodeFrom, h0, h rest]⟩
    · by_cases hr : st.lower ≤ b ∧ b ≤ st.upper
      · by_cases h1 : st.needed = 1
        · obtain ⟨pre, st2, hok, h⟩ := ih Utf8State.init (Or.inl rfl)
          exact ⟨(st.cp * 64 + b % 64) :: pre, st2, hok, fun rest => by
            simp [utf8DecodeFrom, h1, hr, h rest]⟩
        · obtain ⟨pre, st2, hok, h⟩ :=
            ih ⟨st.needed - 1, st.cp * 64 + b % 64, 0x80, 0xBF⟩ (Or.inr (Nat.le_refl _))
          exact ⟨pre, st2, hok, fun rest => by
            simp [utf8DecodeFrom, h0, h1, hr, h rest]⟩
      · obtain ⟨pre, st2, hok, h⟩ := ih (utf8Lead b).2 (utf8Lead_ok b)
        exact ⟨0xFFFD :: ((utf8Lead b).1 ++ pre), st2, hok, fun rest => by
          simp [utf8DecodeFrom, h0, hr, h rest]⟩

/-- ASCII survives decoding: an ASCII byte string found in the bytes is found,
as text, in the host text made from them. -/
theorem StringNew_contains_ascii (lit : List Nat) (hlit : ∀ b ∈ lit, b ≤ 127)
    (bytes : List Nat) (h : lit <:+: bytes) :
    lit.map Char.ofNat <:+: (textOf (utf8DecodeFrom Utf8State.init bytes)).data := by
  obtain ⟨p, q, hpq⟩ := h
  have hcps : lit <:+: utf8DecodeFrom Utf8State.init bytes := by
    cases lit with
    | nil => exact ⟨[], _, rfl⟩
    | cons a l =>
      obtain ⟨pre, st2, hok, hsplit⟩ := utf8DecodeFrom_append p Utf8State.init (Or.inl rfl)
      obtain ⟨pre2, hcons⟩ := utf8DecodeFrom_ascii_cons st2 hok a
        (hlit a (List.mem_cons_self _ _)) (l ++ q)
      have htail := utf8DecodeFrom_ascii l (fun x hx => hlit x (List.mem_cons_of_mem _ hx)) q
      refine ⟨pre ++ pre2, utf8DecodeFrom Utf8State.init q, ?_⟩
      rw [← hpq, List.append_assoc p, hsplit, List.cons_append, hcons, htail]
      simp
  obtain ⟨s, t, hst⟩ := hcps
  refine ⟨s.map Char.ofNat, t.map Char.ofNat, ?_⟩
  simp only [textOf, ← hst, List.map_append]

/-! ## Forwarded and reserved status codes -/

/-- What dumpViewport does on a wrapper that holds a native ref. -/
theorem DumpViewport_live (N : Native) (w : GhosttyTerminal) (tr : Trace)
    (info : List JsValue) (h : w.terminal_ ≠ 0) :
    w.DumpViewport N tr info
      = ⟨StringNew
            (if (N.ghostty_vt_terminal_dump_viewport tr w.terminal_).ptr ≠ 0 ∧
                (N.ghostty_vt_terminal_dump_viewport tr w.terminal_).len > 0 then
              assign N
                (tr ++ [NativeCall.terminal_dump_viewport w.terminal_
                  (N.ghostty_vt_terminal_dump_viewport tr w.terminal_)])
                (N.ghostty_vt_terminal_dump_viewport tr w.terminal_).ptr
                (N.ghostty_vt_terminal_dump_viewport tr w.terminal_).len
            else []), w,
          tr ++ [NativeCall.terminal_dump_viewport w.terminal_
                  (N.ghostty_vt_terminal_dump_viewport tr w.terminal_),
                NativeCall.bytes_free (N.ghostty_vt_terminal_dump_viewport tr w.terminal_)]⟩ := by
  simp [GhosttyTerminal.DumpViewport, h]

/-- Snapshot counts over repeated dumpViewport calls on a wrapper that holds a
native ref: each call obtains one snapshot and releases one. -/
theorem run_DumpViewport_counts (N : Native) (w : GhosttyTerminal) (h : w.terminal_ ≠ 0)
    (infos : List (List JsValue)) :
    ∀ tr : Trace,
      (w.run N tr (infos.map Op.dumpViewport)).self = w ∧
        obtained (w.run N tr (infos.map Op.dumpViewport)).trace
          = obtained tr + infos.length ∧
        released (w.run N tr (infos.map Op.dumpViewport)).trace
          = released tr + infos.length := by
  induction infos with
  | nil => intro tr; simp [GhosttyTerminal.run]
  | cons i infos ih =>
    intro tr
    simp only [List.map_cons, GhosttyTerminal.run, GhosttyTerminal.call]
    rw [DumpViewport_live N w tr i h]
    obtain ⟨h1, h2, h3⟩ := ih (tr ++ [NativeCall.terminal_dump_viewport w.terminal_
      (N.ghostty_vt_terminal_dump_viewport tr w.terminal_),
      NativeCall.bytes_free (N.ghostty_vt_terminal_dump_viewport tr w.terminal_)])
    refine ⟨h1, ?_, ?_⟩
    · rw [h2, obtained_append]
      simp [obtained]
      omega
    · rw [h3, released_append]
      simp [released]
      omega

/-- C7, as stated, fails: the returned text is not always exactly the snapshot
bytes. For an engine whose snapshot is the single byte 255, which is not
well-formed UTF-8, dumpViewport on a live handle returns the text U+FFFD, whose
UTF-8 bytes are 239 191 189. -/
theorem dumpViewport_replaces_invalid_bytes :
    assign invalidByteNative [NativeCall.terminal_dump_viewport 7 ⟨100, 1⟩] 100 1 = [255] ∧
      GhosttyTerminal.DumpViewport invalidByteNative ⟨7⟩ [] []
        = ⟨HostValue.string "\uFFFD", ⟨7⟩,
            [NativeCall.terminal_dump_viewport 7 ⟨100, 1⟩, NativeCall.bytes_free ⟨100, 1⟩]⟩ ∧
      utf8 "\uFFFD" = [239, 191, 189] := by
  decide

/-- C7, amended: snapshot ownership of dumpViewport on a live handle. One call
makes exactly one native dump_viewport call followed by exactly one bytes_free
call on the snapshot that call returned, also for a null or empty snapshot. The
returned text is the host text made from the len bytes at ptr, read from native
memory as it is after the dump and before the release, when ptr is non-null and
len is positive, and the empty text otherwise; the host text made from bytes is
their UTF-8 decoding with every ill-formed sequence replaced by U+FFFD, so it
is exactly those bytes as text whenever they are well-formed UTF-8. The wrapper
is unchanged, so it stays live. Consequently over any number of repeated calls
as many snapshots are released as are obtained: no snapshot is outstanding
after the calls if none was before. -/
theorem dumpViewport_ownership (N : Native) (w : GhosttyTerminal) (tr : Trace)
    (info : List JsValue) (infos : List (List JsValue)) (h : w.terminal_ ≠ 0) :
    (w.DumpViewport N tr info).trace
        = tr ++ [NativeCall.terminal_dump_viewport w.terminal_
                  (N.ghostty_vt_terminal_dump_viewport tr w.terminal_),
                NativeCall.bytes_free (N.ghostty_vt_terminal_dump_viewport tr w.terminal_)] ∧
      (w.DumpViewport N tr info).ret
        = HostValue.string (textOf (utf8DecodeFrom Utf8State.init
            (if (N.ghostty_vt_terminal_dump_viewport tr w.terminal_).ptr ≠ 0 ∧
                (N.ghostty_vt_terminal_dump_viewport tr w.terminal_).len > 0 then
              assign N
                (tr ++ [NativeCall.terminal_dump_viewport w.terminal_
                  (N.ghostty_vt_terminal_dump_viewport tr w.terminal_)])
                (N.ghostty_vt_terminal_dump_viewport tr w.terminal_).ptr
                (N.ghostty_vt_terminal_dump_viewport tr w.terminal_).len
            else []))) ∧
      (∀ s : String,
        (N.ghostty_vt_terminal_dump_viewport tr w.terminal_).ptr ≠ 0 →
        (N.ghostty_vt_terminal_dump_viewport tr w.terminal_).len > 0 →
        assign N
            (tr ++ [NativeCall.terminal_dump_viewport w.terminal_
              (N.ghostty_vt_terminal_dump_viewport tr w.terminal_)])
            (N.ghostty_vt_terminal_dump_viewport tr w.terminal_).ptr
            (N.ghostty_vt_terminal_dump_viewport tr w.terminal_).len = utf8 s →
        (w.DumpViewport N tr info).ret = HostValue.string s) ∧
      ((N.ghostty_vt_terminal_dump_viewport tr w.terminal_).ptr = 0 ∨
          (N.ghostty_vt_terminal_dump_viewport tr w.terminal_).len = 0 →
        (w.DumpViewport N tr info).ret = HostValue.string "") ∧
      (w.DumpViewport N tr info).self = w ∧
      (w.run N tr (infos.map Op.dumpViewport)).self = w ∧
      obtained (w.run N tr (infos.map Op.dumpViewport)).trace = obtained tr + infos.length ∧
      released (w.run N tr (infos.map Op.dumpViewport)).trace = released tr + infos.length ∧
      (obtained tr = released tr →
        obtained (w.run N tr (infos.map Op.dumpViewport)).trace
          = released (w.run N tr (infos.map Op.dumpViewport)).trace) := by
  obtain ⟨h1, h2, h3⟩ := run_DumpViewport_counts N w h infos tr
  rw [DumpViewport_live N w tr info h]
  refine ⟨rfl, rfl, ?_, ?_, rfl, h1, h2, h3, ?_⟩
  · intro s hp hl hs
    simp only [if_pos (And.intro hp hl), hs]
    exact StringNew_utf8 s
  · intro hnull
    have hc : ¬ ((N.ghostty_vt_terminal_dump_viewport tr w.terminal_).ptr ≠ 0 ∧
        (N.ghostty_vt_terminal_dump_viewport tr w.terminal_).len > 0) := by
      rcases hnull with h0 | h0 <;> simp [h0]
    simp only [if_neg hc]
    exact StringNew_empty
  · intro h0
    rw [h2, h3]
    omega

/-- Witness for C7 amended: three dumps in a row on a live wrapper over the
test double, whose snapshot is the five bytes of the text hhhhh. -/
theorem dumpViewport_ownership_witness :
    (GhosttyTerminal.DumpViewport stubNative ⟨7⟩ [] []).trace
        = [] ++ [NativeCall.terminal_dump_viewport 7 ⟨100, 5⟩, NativeCall.bytes_free ⟨100, 5⟩] ∧
      (GhosttyTerminal.DumpViewport stubNative ⟨7⟩ [] []).ret = HostValue.string "hhhhh" ∧
      released (GhosttyTerminal.run stubNative ⟨7⟩ []
          ([[], [], []].map Op.dumpViewport)).trace
        = released [] + ([[], [], []] : List (List JsValue)).length :=
  ⟨(dumpViewport_ownership stubNative ⟨7⟩ [] [] [[], [], []] (by decide)).1,
    (dumpViewport_ownership stubNative ⟨7⟩ [] [] [[], [], []] (by decide)).2.2.1
      "hhhhh" (by decide) (by decide) (by decide),
    (dumpViewport_ownership stubNative ⟨7⟩ [] [] [[], [], []] (by decide)).2.2.2.2.2.2.2.1⟩

/-! ## The standalone demo -/

theorem strlen_demo : strlen (utf8 demo) = (utf8 demo).length := by decide

theorem demo_contains_literal : utf8 "hello from ghostty" <:+: utf8 demo :=
  ⟨utf8 "Ghostty VT core wired ✅\n$ printf '", utf8 "\\n'\nhello from ghostty\n", by decide⟩

theorem assign_length (N : Native) (tr : Trace) (ptr len : Nat) :
    (assign N tr ptr len).length = len := by
  simp [assign]

/-- What renderDemo does when create answers a non-null ref. -/
theorem RenderDemo_live (N : Native) (tr : Trace) (t : Nat) (st : Int)
    (v : ghostty_vt_bytes_t)
    (ht : t = N.ghostty_vt_terminal_new tr 80 24)
    (hst : st = N.ghostty_vt_terminal_feed (tr ++ [NativeCall.terminal_new 80 24 t]) t
      (utf8 demo) (utf8 demo).length)
    (hv : v = N.ghostty_vt_terminal_dump_viewport
      (tr ++ [NativeCall.terminal_new 80 24 t,
        NativeCall.terminal_feed t (utf8 demo) (utf8 demo).length st]) t)
    (h : t ≠ 0) :
    RenderDemo N tr
      = (StringNew
            (if v.ptr ≠ 0 ∧ v.len > 0 then
              assign N
                (tr ++ [NativeCall.terminal_new 80 24 t,
                  NativeCall.terminal_feed t (utf8 demo) (utf8 demo).length st,
                  NativeCall.terminal_dump_viewport t v]) v.ptr v.len
            else utf8 "(no viewport output)"),
          tr ++ [NativeCall.terminal_new 80 24 t,
            NativeCall.terminal_feed t (utf8 demo) (utf8 demo).length st,
            NativeCall.terminal_dump_viewport t v,
            NativeCall.bytes_free v,
            NativeCall.terminal_free t]) := by
  subst hv hst ht
  simp only [RenderDemo, strlen_demo, if_neg h, List.append_assoc, List.cons_append,
    List.nil_append]

/-- C9, as stated, fails: the demo does not always return exactly the snapshot
bytes. For an engine whose snapshot is the single byte 255, which is not
well-formed UTF-8, renderDemo returns the text U+FFFD, whose UTF-8 bytes are
239 191 189. -/
theorem renderDemo_replaces_invalid_bytes :
    assign invalidByteNative
        [NativeCall.terminal_new 80 24 7,
          NativeCall.terminal_feed 7 (utf8 demo) (utf8 demo).length 0,
          NativeCall.terminal_dump_viewport 7 ⟨100, 1⟩] 100 1 = [255] ∧
      RenderDemo invalidByteNative []
        = (HostValue.string "\uFFFD",
            [NativeCall.terminal_new 80 24 7,
              NativeCall.terminal_feed 7 (utf8 demo) (utf8 demo).length 0,
              NativeCall.terminal_dump_viewport 7 ⟨100, 1⟩,
              NativeCall.bytes_free ⟨100, 1⟩,
              NativeCall.terminal_free 7]) ∧
      utf8 "\uFFFD" = [239, 191, 189] := by
  decide

/-- C9, amended: renderDemo against any engine. With t the answer of
create(80, 24), st the status of feeding the fixed script to t, and v the
snapshot of t dumped after that: if t is null the failure text is returned and
create is the only native call; otherwise the native calls are, in this order
and once each, create, feed of the whole script (whatever st is),
dump_viewport, bytes_free of v and terminal_free of t, and the result is the
host text made from the len bytes at ptr (read before the release) when ptr is
non-null and len positive, else the sentinel. The host text made from bytes is
their UTF-8 decoding with every ill-formed sequence replaced by U+FFFD, so it
is exactly the snapshot bytes as text whenever they are well-formed UTF-8. The
script contains the literal. For a null or empty snapshot the demo returns the
sentinel where the handle-bound dumpViewport returns the empty text. Hence the
output contains the literal whenever the dumped bytes do. -/
theorem renderDemo_contract (N : Native) (tr : Trace) (t : Nat) (st : Int)
    (v : ghostty_vt_bytes_t)
    (ht : t = N.ghostty_vt_terminal_new tr 80 24)
    (hst : st = N.ghostty_vt_terminal_feed (tr ++ [NativeCall.terminal_new 80 24 t]) t
      (utf8 demo) (utf8 demo).length)
    (hv : v = N.ghostty_vt_terminal_dump_viewport
      (tr ++ [NativeCall.terminal_new 80 24 t,
        NativeCall.terminal_feed t (utf8 demo) (utf8 demo).length st]) t) :
    (t = 0 →
        RenderDemo N tr
          = (HostValue.string "Failed to initialize Ghostty VT terminal.",
              tr ++ [NativeCall.terminal_new 80 24 0])) ∧
      (t ≠ 0 →
        RenderDemo N tr
          = (HostValue.string (textOf (utf8DecodeFrom Utf8State.init
                (if v.ptr ≠ 0 ∧ v.len > 0 then
                  assign N
                    (tr ++ [NativeCall.terminal_new 80 24 t,
                      NativeCall.terminal_feed t (utf8 demo) (utf8 demo).length st,
                      NativeCall.terminal_dump_viewport t v]) v.ptr v.len
                else utf8 "(no viewport output)"))),
              tr ++ [NativeCall.terminal_new 80 24 t,
                NativeCall.terminal_feed t (utf8 demo) (utf8 demo).length st,
                NativeCall.terminal_dump_viewport t v,
                NativeCall.bytes_free v,
                NativeCall.terminal_free t])) ∧
      (∀ s : String, t ≠ 0 → v.ptr ≠ 0 → v.len > 0 →
        assign N
            (tr ++ [NativeCall.terminal_new 80 24 t,
              NativeCall.terminal_feed t (utf8 demo) (utf8 demo).length st,
              NativeCall.terminal_dump_viewport t v]) v.ptr v.len = utf8 s →
        (RenderDemo N tr).1 = HostValue.string s) ∧
      utf8 "hello from ghostty" <:+: utf8 demo ∧
      (t ≠ 0 → v.ptr = 0 ∨ v.len = 0 →
        (RenderDemo N tr).1 = HostValue.string "(no viewport output)") ∧
      (∀ (w : GhosttyTerminal) (tr2 : Trace) (info : List JsValue), w.terminal_ ≠ 0 →
        (N.ghostty_vt_terminal_dump_viewport tr2 w.terminal_).ptr = 0 ∨
          (N.ghostty_vt_terminal_dump_viewport tr2 w.terminal_).len = 0 →
        (w.DumpViewport N tr2 info).ret = HostValue.string "") ∧
      (t ≠ 0 → v.ptr ≠ 0 →
        utf8 "hello from ghostty" <:+:
          assign N
            (tr ++ [NativeCall.terminal_new 80 24 t,
              NativeCall.terminal_feed t (utf8 demo) (utf8 demo).length st,
              NativeCall.terminal_dump_viewport t v]) v.ptr v.len →
        ∃ out, (RenderDemo N tr).1 = HostValue.string out ∧
          "hello from ghostty".data <:+: out.data) := by
  have hlive := RenderDemo_live N tr t st v ht hst hv
  refine ⟨?_, ?_, ?_, demo_contains_literal, ?_, ?_, ?_⟩
  · intro h
    rw [ht] at h
    have hf : StringNew (utf8 "Failed to initialize Ghostty VT terminal.")
        = HostValue.string "Failed to initialize Ghostty VT terminal." := StringNew_utf8 _
    simp [RenderDemo, h, hf]
  · intro h
    rw [hlive h]
    rfl
  · intro s h hp hl hs
    rw [hlive h]
    simp only [if_pos (And.intro hp hl), hs]
    exact StringNew_utf8 s
  · intro h hnull
    rw [hlive h]
    have hc : ¬ (v.ptr ≠ 0 ∧ v.len > 0) := by
      rcases hnull with h0 | h0 <;> simp [h0]
    simp only [if_neg hc]
    exact StringNew_utf8 _
  · intro w tr2 info hw hnull
    rw [DumpViewport_live N w tr2 info hw]
    have hc : ¬ ((N.ghostty_vt_terminal_dump_viewport tr2 w.terminal_).ptr ≠ 0 ∧
        (N.ghostty_vt_terminal_dump_viewport tr2 w.terminal_).len > 0) := by
      rcases hnull with h0 | h0 <;> simp [h0]
    simp only [if_neg hc]
    exact StringNew_empty
  · intro h hptr hin
    rw [hlive h]
    have hlen : v.len > 0 := by
      have h1 := hin.length_le
      rw [assign_length] at h1
      have h2 : (utf8 "hello from ghostty").length = 18 := by decide
      omega
    simp only [if_pos (And.intro hptr hlen)]
    refine ⟨_, rfl, ?_⟩
    have hascii : ∀ b ∈ utf8 "hello from ghostty", b ≤ 127 := by decide
    have hmap : (utf8 "hello from ghostty").map Char.ofNat = "hello from ghostty".data := by
      decide
    have hfound := StringNew_contains_ascii _ hascii _ hin
    rw [hmap] at hfound
    exact hfound

/-- Witness for C9 amended: against the engine that dumps the script itself,
the demo output contains the literal. -/
theorem renderDemo_contract_witness :
    ∃ out, (RenderDemo echoNative []).1 = HostValue.string out ∧
      "hello from ghostty".data <:+: out.data :=
  (renderDemo_contract echoNative [] 7 0 ⟨100, (utf8 demo).length⟩ rfl rfl rfl).2.2.2.2.2.2
    (by decide) (by decide)
    ⟨utf8 "Ghostty VT core wired ✅\n$ printf '", utf8 "\\n'\nhello from ghostty\n",
      by decide⟩

end GhosttyVt
